import Mathlib

/-!
Shallow embedding of the configuration-to-execution pipeline of
`create_agents_from_yaml.mjs` (classes `AgentConfig`, `SwarmConfig`,
functions `loadYamlSafely`, `createAgentWithRetry`, `createAgentsFromYaml`).

External collaborators (the YAML parser, the file system, the `Agent`
runtime constructor and the `SwarmRouter.run` method) are passed in as
explicit function parameters; the `LiteLLM` model backend is represented by
the model-name string handed to its constructor, and the pipeline records a
trace counting model-backend instantiations and successful agent
constructions (the observations a spy backend factory would record).
-/

/-- A loosely typed YAML/JS scalar, used where the source inspects the
runtime type of a field (`typeof this.systemPrompt !== "string"`). -/
inductive YVal where
  | vstr (s : String)
  | vnum (n : Int)
  | vbool (b : Bool)
  | vnull
deriving DecidableEq, Repr

/-- JS truthiness of an optional field value; an absent field reads as
`undefined`, which is falsy. -/
def YVal.truthyOpt : Option YVal → Bool
  | none => false
  | some (.vstr s) => s ≠ ""
  | some (.vnum n) => n ≠ 0
  | some (.vbool b) => b
  | some .vnull => false

/-- Is the optional value a string (the `typeof v === "string"` test)? -/
def YVal.isStrOpt : Option YVal → Bool
  | some (.vstr _) => true
  | _ => false

/-- JS `String.prototype.trim()`: strip leading and trailing whitespace,
modelled character by character. -/
def jsTrim (s : String) : String :=
  String.mk (((s.data.dropWhile Char.isWhitespace).reverse.dropWhile
    Char.isWhitespace).reverse)

/-- JS `x || d` for an optional boolean field: `false`, `null` and
`undefined` are all falsy, so a supplied `false` falls through to `d`. -/
def jsOrBool : Option Bool → Bool → Bool
  | some b, d => if b then b else d
  | none, d => d

/-- JS `x || d` for an optional string field: the empty string is falsy. -/
def jsOrStr : Option String → String → String
  | some s, d => if s ≠ "" then s else d
  | none, d => d

/-- JS `x || null` for an optional string field. -/
def jsOrNullStr : Option String → Option String
  | some s => if s ≠ "" then some s else none
  | none => none

/-- JS `x || d` for an optional numeric field: `0` is falsy. -/
def jsOrNat : Option Nat → Nat → Nat
  | some n, d => if n ≠ 0 then n else d
  | none, d => d

/-- A raw agent node as it comes out of the YAML tree: every field may be
absent.  Fields other than `system_prompt` are typed by the YAML type the
source expects for them; `system_prompt` stays loosely typed because the
constructor checks its runtime type. -/
structure RawAgentNode where
  agent_name : Option String := none
  system_prompt : Option YVal := none
  model_name : Option String := none
  max_loops : Option Nat := none
  autosave : Option Bool := none
  dashboard : Option Bool := none
  verbose : Option Bool := none
  dynamic_temperature_enabled : Option Bool := none
  saved_state_path : Option String := none
  user_name : Option String := none
  retry_attempts : Option Nat := none
  context_length : Option Nat := none
  return_step_meta : Option Bool := none
  output_type : Option String := none
  auto_generate_prompt : Option Bool := none
  artifacts_on : Option Bool := none
  artifacts_file_extension : Option String := none
  artifacts_output_path : Option String := none
deriving DecidableEq, Repr

/-- The validated agent configuration produced by the `AgentConfig`
constructor. -/
structure AgentConfig where
  agentName : Option String
  systemPrompt : String
  modelName : Option String
  maxLoops : Nat
  autosave : Bool
  dashboard : Bool
  verbose : Bool
  dynamicTemperatureEnabled : Bool
  savedStatePath : Option String
  userName : String
  retryAttempts : Nat
  contextLength : Nat
  returnStepMeta : Bool
  outputType : String
  autoGeneratePrompt : Bool
  artifactsOn : Bool
  artifactsFileExtension : String
  artifactsOutputPath : String
deriving DecidableEq, Repr

/-- The `AgentConfig` constructor.  The JS constructor first assigns every
field with `||`-defaulting and then throws when
`!this.systemPrompt || typeof this.systemPrompt !== "string" ||
this.systemPrompt.trim().length === 0`; since a throw discards the partial
object, this is the same as checking first and building on success.  The
guard rejects exactly the values that are not a string with non-blank
trim: a missing field and every non-string fail the first two disjuncts,
and `""` is both falsy and blank. -/
def mkAgentConfig (config : RawAgentNode) : Except String AgentConfig :=
  match config.system_prompt with
  | some (.vstr s) =>
    if (jsTrim s).length = 0 then
      .error "System prompt must be a non-empty string"
    else
      .ok
        { agentName := config.agent_name
          systemPrompt := s
          modelName := jsOrNullStr config.model_name
          maxLoops := jsOrNat config.max_loops 1
          autosave := jsOrBool config.autosave true
          dashboard := jsOrBool config.dashboard false
          verbose := jsOrBool config.verbose false
          dynamicTemperatureEnabled := jsOrBool config.dynamic_temperature_enabled false
          savedStatePath := jsOrNullStr config.saved_state_path
          userName := jsOrStr config.user_name "default_user"
          retryAttempts := jsOrNat config.retry_attempts 3
          contextLength := jsOrNat config.context_length 100000
          returnStepMeta := jsOrBool config.return_step_meta false
          outputType := jsOrStr config.output_type "str"
          autoGeneratePrompt := jsOrBool config.auto_generate_prompt false
          artifactsOn := jsOrBool config.artifacts_on false
          artifactsFileExtension := jsOrStr config.artifacts_file_extension ".md"
          artifactsOutputPath := jsOrStr config.artifacts_output_path "" }
  | _ => .error "System prompt must be a non-empty string"

/-- A raw swarm node (`swarm_architecture` map) from the YAML tree. -/
structure RawSwarmNode where
  name : Option String := none
  description : Option String := none
  max_loops : Option Nat := none
  swarm_type : Option String := none
  task : Option String := none
  flow : Option String := none
  autosave : Option Bool := none
  return_json : Option Bool := none
  rules : Option String := none
deriving DecidableEq, Repr

/-- The `validTypes` set of the `SwarmConfig` constructor, in insertion
order. -/
def validSwarmTypes : List String :=
  ["SequentialWorkflow", "ConcurrentWorkflow", "AgentRearrange", "MixtureOfAgents", "auto"]

/-- The validated swarm configuration produced by the `SwarmConfig`
constructor. -/
structure SwarmConfig where
  name : Option String
  description : Option String
  maxLoops : Nat
  swarmType : String
  task : Option String
  flow : Option String
  autosave : Bool
  returnJson : Bool
  rules : String
deriving DecidableEq, Repr

/-- Error message of the `SwarmConfig` constructor. -/
def swarmTypeErrorMsg : String :=
  "Swarm type must be one of: " ++ String.intercalate ", " validSwarmTypes

/-- The `SwarmConfig` constructor: assigns fields with `||`-defaulting and
throws when `swarm_type` is not a member of `validTypes` (an absent
`swarm_type` reads as `undefined`, which is not a member). -/
def mkSwarmConfig (config : RawSwarmNode) : Except String SwarmConfig :=
  match config.swarm_type with
  | some t =>
    if t ∈ validSwarmTypes then
      .ok
        { name := config.name
          description := config.description
          maxLoops := jsOrNat config.max_loops 1
          swarmType := t
          task := jsOrNullStr config.task
          flow := jsOrNullStr config.flow
          autosave := jsOrBool config.autosave true
          returnJson := jsOrBool config.return_json false
          rules := jsOrStr config.rules "" }
    else .error swarmTypeErrorMsg
  | none => .error swarmTypeErrorMsg

/-- The parsed YAML document: top-level `agents` sequence and optional
`swarm_architecture` map.  `agents` is `none` when the key is absent or
not a sequence (the source checks `!configDict.agents ||
!Array.isArray(configDict.agents)`). -/
structure ConfigDict where
  agents : Option (List RawAgentNode) := none
  swarm_architecture : Option RawSwarmNode := none
deriving DecidableEq, Repr

/-- JS truthiness of an optional string argument (`null`, `undefined` and
`""` are falsy). -/
def truthyStrOpt : Option String → Bool
  | none => false
  | some s => s ≠ ""

/-- Body of `loadYamlSafely` inside its `try` block: pick the source
(`yamlString` is tested first), parse, then run the structural check on
`agents`.  `parse` stands for `yaml.parse` and `fsRead` for
`fs.existsSync`/`fs.readFileSync` (`none` means the file does not
exist). -/
def loadYamlSafelyBody (parse : String → Except String ConfigDict)
    (fsRead : String → Option String)
    (yamlFile : Option String) (yamlString : Option String) :
    Except String ConfigDict :=
  let sourced : Except String ConfigDict :=
    if truthyStrOpt yamlString then
      parse (yamlString.getD "")
    else if truthyStrOpt yamlFile then
      match fsRead (yamlFile.getD "") with
      | none => .error ("YAML file " ++ yamlFile.getD "" ++ " not found.")
      | some content => parse content
    else
      .error "Either yamlFile or yamlString must be provided"
  match sourced with
  | .error e => .error e
  | .ok configDict =>
    match configDict.agents with
    | none => .error "Invalid YAML: Must contain at least one agent configuration."
    | some ags =>
      if ags.length < 1 then
        .error "Invalid YAML: Must contain at least one agent configuration."
      else .ok configDict

/-- `loadYamlSafely`: every error raised inside the `try` block is
re-thrown wrapped as `Error validating configuration: ...`. -/
def loadYamlSafely (parse : String → Except String ConfigDict)
    (fsRead : String → Option String)
    (yamlFile : Option String) (yamlString : Option String) :
    Except String ConfigDict :=
  match loadYamlSafelyBody parse fsRead yamlFile yamlString with
  | .ok c => .ok c
  | .error e => .error ("Error validating configuration: " ++ e)

/-- Errors a single agent-construction attempt can raise.  `connection` and
`timeout` mirror the `ConnectionError`/`TimeoutError` classes named by
`retryIfExceptionType`; `validation` is the `AgentConfig` constructor
throw; `other` covers every remaining error. -/
inductive JsErr where
  | connection (msg : String)
  | timeout (msg : String)
  | validation (msg : String)
  | other (msg : String)
deriving DecidableEq, Repr

/-- The `retryIfExceptionType([ConnectionError, TimeoutError])` predicate:
only these two classes are retried. -/
def JsErr.isTransient : JsErr → Bool
  | .connection _ => true
  | .timeout _ => true
  | _ => false

/-- The message carried by the error object. -/
def JsErr.message : JsErr → String
  | .connection m => m
  | .timeout m => m
  | .validation m => m
  | .other m => m

/-- An `Agent` instance.  `structs/agent.mjs` is an external collaborator
(its runtime is a black box): an instance is identified by the validated
configuration and the model backend it was constructed with. -/
structure Agent where
  cfg : AgentConfig
  modelId : String
deriving DecidableEq, Repr

/-- One pass of the function wrapped by `createAgentWithRetry`: validate
the raw node through the `AgentConfig` constructor (a throw there is a
validation error, not retried), then run `new Agent({...})`.  Constructing
the agent against the live model backend may fail, differently on
different attempts, so the constructor is an oracle `agentCtor` indexed by
the validated config, the model and the attempt number. -/
def attemptOnce (agentCtor : AgentConfig → String → Nat → Except JsErr Agent)
    (node : RawAgentNode) (model : String) (attempt : Nat) :
    Except JsErr Agent :=
  match mkAgentConfig node with
  | .error m => .error (.validation m)
  | .ok v => agentCtor v model attempt

/-- The retry driver of the `tenacity`-style wrapper, with
`stop: stopAfterAttempt(3)` and `retry: retryIfExceptionType([...])`:
attempt `attempt` runs; on success the result is returned; on a
retryable (transient) error a further attempt runs while attempts remain;
any other error, or a transient error on the final allowed attempt, is
re-raised.  The second component of the result is the number of the
attempt that produced it. -/
def retryFrom (f : Nat → Except JsErr Agent) :
    Nat → Nat → Except JsErr Agent × Nat
  | 0, attempt => (.error (.other "retry driver exhausted"), attempt)
  | remaining + 1, attempt =>
    match f attempt with
    | .ok a => (.ok a, attempt)
    | .error e =>
      if e.isTransient ∧ remaining ≠ 0 then
        retryFrom f remaining (attempt + 1)
      else (.error e, attempt)

/-- `createAgentWithRetry` applied to an attempt oracle: up to 3 attempts,
numbered from 1. -/
def createAgentWithRetry (f : Nat → Except JsErr Agent) :
    Except JsErr Agent × Nat :=
  retryFrom f 3 1

/-- The `SwarmRouter` constructor argument record.  `structs/swarm_router.mjs`
is an external collaborator; constructing it stores the configuration. -/
structure SwarmRouter where
  name : Option String
  description : Option String
  maxLoops : Nat
  agents : List Agent
  swarmType : String
  task : Option String
  flow : Option String
  autosave : Bool
  returnJson : Bool
  rules : String
deriving DecidableEq, Repr

/-- `new SwarmRouter({...})` from a validated swarm config and the agent
list. -/
def mkSwarmRouter (sc : SwarmConfig) (agents : List Agent) : SwarmRouter :=
  { name := sc.name
    description := sc.description
    maxLoops := sc.maxLoops
    agents := agents
    swarmType := sc.swarmType
    task := sc.task
    flow := sc.flow
    autosave := sc.autosave
    returnJson := sc.returnJson
    rules := sc.rules }

/-- Spy observations of the pipeline: how many `new LiteLLM({...})` model
backends were instantiated and how many agents were successfully
constructed. -/
structure PipelineTrace where
  modelsInstantiated : Nat
  agentsConstructed : Nat
deriving DecidableEq, Repr

/-- The model backend handed to one agent construction:
`new LiteLLM({ modelName: agentConfig.model_name || "gpt-4o" })`,
represented by its model name. -/
def modelFor (node : RawAgentNode) : String :=
  jsOrStr node.model_name "gpt-4o"

/-- One iteration of the agent loop:
`await createAgentWithRetry(agentConfig, modelInstance)`. -/
def buildOne (agentCtor : AgentConfig → String → Nat → Except JsErr Agent)
    (node : RawAgentNode) : Except JsErr Agent × Nat :=
  createAgentWithRetry (attemptOnce agentCtor node (modelFor node))

/-- The `for (const agentConfig of config.agents)` loop: one model backend
is instantiated per node, then the agent is built with retry; the first
construction failure aborts the loop (the error propagates out of
`createAgentsFromYaml`). -/
def buildAgentsLoop (agentCtor : AgentConfig → String → Nat → Except JsErr Agent) :
    List RawAgentNode → Except String (List Agent) × PipelineTrace
  | [] => (.ok [], { modelsInstantiated := 0, agentsConstructed := 0 })
  | node :: rest =>
    match (buildOne agentCtor node).1 with
    | .error e =>
      (.error e.message, { modelsInstantiated := 1, agentsConstructed := 0 })
    | .ok a =>
      match buildAgentsLoop agentCtor rest with
      | (.error e, tr) =>
        (.error e,
          { modelsInstantiated := tr.modelsInstantiated + 1
            agentsConstructed := tr.agentsConstructed + 1 })
      | (.ok as, tr) =>
        (.ok (a :: as),
          { modelsInstantiated := tr.modelsInstantiated + 1
            agentsConstructed := tr.agentsConstructed + 1 })

/-- The `validReturnTypes` set, in insertion order. -/
def validReturnTypes : List String :=
  ["auto", "swarm", "agents", "both", "tasks", "run_swarm"]

/-- Error message for an unrecognized `returnType`. -/
def invalidReturnTypeMsg : String :=
  "Invalid return_type. Must be one of: " ++ String.intercalate ", " validReturnTypes

/-- The value `createAgentsFromYaml` hands back, one constructor per
`return` site of the `switch`. -/
inductive PipelineResult where
  | runOutput (out : String)
  | singleAgent (a : Agent)
  | agentList (as : List Agent)
  | bothResult (router : Option SwarmRouter) (as : List Agent)
  | taskList (ts : List String)
  | routerObj (r : SwarmRouter)
deriving DecidableEq, Repr

/-- `createAgentsFromYaml`: load the document, build every agent in order,
validate and construct the optional swarm router, validate `returnType`,
then dispatch on it.  `routerRun` stands for `swarmRouter.run` (an
external collaborator); the source passes it the raw
`config.swarm_architecture.task`.  The trace records the spy
observations accumulated before the call returned. -/
def createAgentsFromYaml
    (parse : String → Except String ConfigDict)
    (fsRead : String → Option String)
    (agentCtor : AgentConfig → String → Nat → Except JsErr Agent)
    (routerRun : SwarmRouter → Option String → String)
    (yamlFile : Option String) (yamlString : Option String)
    (returnType : String) :
    Except String PipelineResult × PipelineTrace :=
  match loadYamlSafely parse fsRead yamlFile yamlString with
  | .error e => (.error e, { modelsInstantiated := 0, agentsConstructed := 0 })
  | .ok config =>
    match buildAgentsLoop agentCtor (config.agents.getD []) with
    | (.error e, tr) => (.error e, tr)
    | (.ok agents, tr) =>
      let routerE : Except String (Option SwarmRouter) :=
        match config.swarm_architecture with
        | none => .ok none
        | some swarmNode =>
          match mkSwarmConfig swarmNode with
          | .error e => .error e
          | .ok sc => .ok (some (mkSwarmRouter sc agents))
      match routerE with
      | .error e => (.error e, tr)
      | .ok swarmRouterOpt =>
        if returnType ∈ validReturnTypes then
          if returnType = "run_swarm" ∨ returnType = "swarm" then
            match swarmRouterOpt with
            | none => (.error "Cannot run swarm: SwarmRouter not created.", tr)
            | some r =>
              let rawTask :=
                match config.swarm_architecture with
                | some n => n.task
                | none => none
              (.ok (.runOutput (routerRun r rawTask)), tr)
          else if returnType = "agents" then
            match agents with
            | [a] => (.ok (.singleAgent a), tr)
            | _ => (.ok (.agentList agents), tr)
          else if returnType = "both" then
            (.ok (.bothResult swarmRouterOpt agents), tr)
          else if returnType = "tasks" then
            (.ok (.taskList []), tr)
          else
            match swarmRouterOpt with
            | some r => (.ok (.routerObj r), tr)
            | none =>
              match agents with
              | [a] => (.ok (.singleAgent a), tr)
              | _ => (.ok (.agentList agents), tr)
        else (.error invalidReturnTypeMsg, tr)

/-- The five topology names as the spec spells them. -/
def specSwarmTypeNames : List String :=
  ["Sequential", "Concurrent", "Rearrange", "MixtureOfAgents", "Auto"]

/-- A well-formed raw agent node. -/
def goodAgentNode : RawAgentNode :=
  { agent_name := some "A", system_prompt := some (.vstr "do X") }

/-- A second well-formed raw agent node. -/
def goodAgentNodeB : RawAgentNode :=
  { agent_name := some "B", system_prompt := some (.vstr "do Y") }

/-- The validated configuration `mkAgentConfig` produces for
`goodAgentNode`. -/
def goodAgentCfg : AgentConfig :=
  { agentName := some "A"
    systemPrompt := "do X"
    modelName := none
    maxLoops := 1
    autosave := true
    dashboard := false
    verbose := false
    dynamicTemperatureEnabled := false
    savedStatePath := none
    userName := "default_user"
    retryAttempts := 3
    contextLength := 100000
    returnStepMeta := false
    outputType := "str"
    autoGeneratePrompt := false
    artifactsOn := false
    artifactsFileExtension := ".md"
    artifactsOutputPath := "" }

/-- The agent built from `goodAgentCfg` against the default model. -/
def goodAgent : Agent := { cfg := goodAgentCfg, modelId := "gpt-4o" }

/-- The validated configuration `mkAgentConfig` produces for
`goodAgentNodeB`. -/
def goodAgentCfgB : AgentConfig :=
  { agentName := some "B"
    systemPrompt := "do Y"
    modelName := none
    maxLoops := 1
    autosave := true
    dashboard := false
    verbose := false
    dynamicTemperatureEnabled := false
    savedStatePath := none
    userName := "default_user"
    retryAttempts := 3
    contextLength := 100000
    returnStepMeta := false
    outputType := "str"
    autoGeneratePrompt := false
    artifactsOn := false
    artifactsFileExtension := ".md"
    artifactsOutputPath := "" }

/-- The agent built from `goodAgentCfgB` against the default model. -/
def goodAgentB : Agent := { cfg := goodAgentCfgB, modelId := "gpt-4o" }

/-- A parser stub that yields the same document for every input string. -/
def constParse (doc : ConfigDict) : String → Except String ConfigDict :=
  fun _ => .ok doc

/-- A file system with no readable files. -/
def fsEmpty : String → Option String := fun _ => none

/-- An agent runtime constructor that always succeeds. -/
def ctorOk : AgentConfig → String → Nat → Except JsErr Agent :=
  fun v m _ => .ok { cfg := v, modelId := m }

/-- An agent runtime constructor that fails (non-transiently) for the
agent named `B` and succeeds otherwise. -/
def ctorFailB : AgentConfig → String → Nat → Except JsErr Agent :=
  fun v m _ =>
    if v.agentName = some "B" then .error (.other "boom")
    else .ok { cfg := v, modelId := m }

/-- A router `run` stub returning the task it was given. -/
def runStub : SwarmRouter → Option String → String :=
  fun _ t => t.getD ""

/-- A document with one agent and no swarm block. -/
def docOneAgent : ConfigDict := { agents := some [goodAgentNode] }

/-- A document with two agents and no swarm block. -/
def docTwoAgents : ConfigDict := { agents := some [goodAgentNode, goodAgentNodeB] }

/-- A raw swarm node with the unrecognized type `Bogus`. -/
def bogusSwarmNode : RawSwarmNode := { swarm_type := some "Bogus" }

/-- A document with one agent and a swarm block of type `Bogus`. -/
def docBogusSwarm : ConfigDict :=
  { agents := some [goodAgentNode], swarm_architecture := some bogusSwarmNode }

/-- A raw swarm node carrying the type string `SequentialWorkflow` that
the code recognizes. -/
def seqWorkflowNode : RawSwarmNode := { swarm_type := some "SequentialWorkflow" }

/-- The validated configuration `mkSwarmConfig` produces for
`seqWorkflowNode`. -/
def seqWorkflowCfg : SwarmConfig :=
  { name := none
    description := none
    maxLoops := 1
    swarmType := "SequentialWorkflow"
    task := none
    flow := none
    autosave := true
    returnJson := false
    rules := "" }

/-- A raw agent node that supplies `autosave: false` alongside a valid
prompt. -/
def autosaveFalseNode : RawAgentNode :=
  { agent_name := some "A"
    system_prompt := some (.vstr "do X")
    autosave := some false }

/-- An attempt oracle that fails with a connection error on attempt 1 and
succeeds from attempt 2 on. -/
def flakyOnce : Nat → Except JsErr Agent :=
  fun i => if i ≤ 1 then .error (.connection "net down") else .ok goodAgent

/-- Transient failure of a single construction attempt. -/
def failsTransiently (r : Except JsErr Agent) : Prop :=
  ∃ e, r = .error e ∧ e.isTransient = true

/-- When the agent loop succeeds it has instantiated one model backend and
constructed one agent per node. -/
theorem buildAgentsLoop_ok_counts
    (agentCtor : AgentConfig → String → Nat → Except JsErr Agent)
    (nodes : List RawAgentNode) :
    ∀ agents tr, buildAgentsLoop agentCtor nodes = (.ok agents, tr) →
      tr.modelsInstantiated = nodes.length ∧
        tr.agentsConstructed = nodes.length ∧ agents.length = nodes.length := by
  induction nodes with
  | nil =>
    intro agents tr h
    simp only [buildAgentsLoop, Prod.mk.injEq] at h
    obtain ⟨h1, h2⟩ := h
    cases h1
    cases h2
    simp
  | cons node rest ih =>
    intro agents tr h
    simp only [buildAgentsLoop] at h
    cases hb : (buildOne agentCtor node).1 with
    | error e => rw [hb] at h; simp at h
    | ok a =>
      rw [hb] at h
      cases hr : buildAgentsLoop agentCtor rest with
      | mk fst tr2 =>
        rw [hr] at h
        cases fst with
        | error e => simp at h
        | ok as =>
          simp only [Prod.mk.injEq] at h
          obtain ⟨h1, h2⟩ := h
          cases h1
          cases h2
          obtain ⟨m1, m2, m3⟩ := ih as tr2 hr
          simp [m1, m2, m3]

/-- When the agent loop succeeds, the agent list corresponds node by node,
in declaration order, to the outcome of `buildOne`. -/
theorem buildAgentsLoop_ok_order
    (agentCtor : AgentConfig → String → Nat → Except JsErr Agent)
    (nodes : List RawAgentNode) :
    ∀ agents tr, buildAgentsLoop agentCtor nodes = (.ok agents, tr) →
      List.Forall₂ (fun n a => (buildOne agentCtor n).1 = .ok a) nodes agents := by
  induction nodes with
  | nil =>
    intro agents tr h
    simp only [buildAgentsLoop, Prod.mk.injEq] at h
    obtain ⟨h1, _⟩ := h
    cases h1
    exact List.Forall₂.nil
  | cons node rest ih =>
    intro agents tr h
    simp only [buildAgentsLoop] at h
    cases hb : (buildOne agentCtor node).1 with
    | error e => rw [hb] at h; simp at h
    | ok a =>
      rw [hb] at h
      cases hr : buildAgentsLoop agentCtor rest with
      | mk fst tr2 =>
        rw [hr] at h
        cases fst with
        | error e => simp at h
        | ok as =>
          simp only [Prod.mk.injEq] at h
          obtain ⟨h1, _⟩ := h
          cases h1
          exact List.Forall₂.cons hb (ih as tr2 hr)

/-- If any node of the list fails to build, the whole loop returns an
error. -/
theorem buildAgentsLoop_error_of_mem
    (agentCtor : AgentConfig → String → Nat → Except JsErr Agent)
    (nodes : List RawAgentNode) (node : RawAgentNode) (e : JsErr)
    (hmem : node ∈ nodes) (hfail : (buildOne agentCtor node).1 = .error e) :
    ∃ msg, (buildAgentsLoop agentCtor nodes).1 = .error msg := by
  induction nodes with
  | nil => cases hmem
  | cons hd rest ih =>
    rcases List.mem_cons.mp hmem with heq | hmem2
    · cases heq
      exact ⟨e.message, by simp [buildAgentsLoop, hfail]⟩
    · cases hb : (buildOne agentCtor hd).1 with
      | error e2 => exact ⟨e2.message, by simp [buildAgentsLoop, hb]⟩
      | ok a =>
        obtain ⟨msg, hmsg⟩ := ih hmem2
        cases hr : buildAgentsLoop agentCtor rest with
        | mk fst tr2 =>
          rw [hr] at hmsg
          cases fst with
          | ok as => simp at hmsg
          | error e3 =>
            simp only at hmsg
            cases hmsg
            exact ⟨msg, by simp [buildAgentsLoop, hb, hr]⟩

/-- C8: a raw agent node whose `system_prompt` is missing, not a string,
or blank after trimming is rejected by the `AgentConfig` constructor with
the validation error, never accepted. -/
theorem agentConfig_rejects_bad_system_prompt (node : RawAgentNode)
    (h : node.system_prompt = none
      ∨ (∃ v, node.system_prompt = some v ∧ YVal.isStrOpt (some v) = false)
      ∨ (∃ s, node.system_prompt = some (.vstr s) ∧ jsTrim s = "")) :
    mkAgentConfig node = .error "System prompt must be a non-empty string" := by
  rcases h with h | ⟨v, hv, hstr⟩ | ⟨s, hs, htrim⟩
  · simp [mkAgentConfig, h]
  · cases v with
    | vstr s => simp [YVal.isStrOpt] at hstr
    | vnum n => simp [mkAgentConfig, hv]
    | vbool b => simp [mkAgentConfig, hv]
    | vnull => simp [mkAgentConfig, hv]
  · simp [mkAgentConfig, hs, htrim]

/-- Witness for C8: the empty raw node has no `system_prompt` and is
rejected. -/
theorem agentConfig_rejects_bad_system_prompt_witness :
    ({} : RawAgentNode).system_prompt = none ∧
      mkAgentConfig {} = .error "System prompt must be a non-empty string" :=
  ⟨rfl, agentConfig_rejects_bad_system_prompt {} (Or.inl rfl)⟩

/-- C4 (code bug): the `AgentConfig` constructor evaluated at a node that
supplies `autosave: false` (and a valid prompt) yields `autosave = true`:
the `config.autosave || true` defaulting swallows a supplied `false`, so
the documented behaviour (keep the supplied boolean) is unattainable. -/
theorem agentConfig_autosave_false_becomes_true :
    Except.map AgentConfig.autosave (mkAgentConfig autosaveFalseNode) = .ok true := by
  rfl

/-- Counterexample for C1: the code accepts the swarm type
`"SequentialWorkflow"`, a value outside the five spec names, and rejects
`"Concurrent"`, a value inside them. -/
theorem swarmConfig_spec_names_counterexample :
    ("SequentialWorkflow" ∉ specSwarmTypeNames) ∧
      mkSwarmConfig seqWorkflowNode = .ok seqWorkflowCfg ∧
      ("Concurrent" ∈ specSwarmTypeNames) ∧
      mkSwarmConfig { swarm_type := some "Concurrent" } = .error swarmTypeErrorMsg :=
  ⟨by decide, rfl, by decide, rfl⟩

/-- C1 (amended): the `SwarmConfig` constructor succeeds exactly when the
raw node carries a `swarm_type` that is one of the five strings
`SequentialWorkflow`, `ConcurrentWorkflow`, `AgentRearrange`,
`MixtureOfAgents`, `auto`, and the accepted value is stored verbatim,
never coerced. -/
theorem swarmConfig_enum_closed (node : RawSwarmNode) :
    ((∃ cfg, mkSwarmConfig node = .ok cfg) ↔
      ∃ t, node.swarm_type = some t ∧ t ∈ validSwarmTypes)
    ∧ (∀ cfg, mkSwarmConfig node = .ok cfg → node.swarm_type = some cfg.swarmType) := by
  constructor
  · constructor
    · rintro ⟨cfg, hcfg⟩
      cases h : node.swarm_type with
      | none => simp [mkSwarmConfig, h] at hcfg
      | some t =>
        refine ⟨t, rfl, ?_⟩
        by_contra hmem
        simp [mkSwarmConfig, h, hmem] at hcfg
    · rintro ⟨t, ht, hmem⟩
      refine ⟨{ name := node.name
                description := node.description
                maxLoops := jsOrNat node.max_loops 1
                swarmType := t
                task := jsOrNullStr node.task
                flow := jsOrNullStr node.flow
                autosave := jsOrBool node.autosave true
                returnJson := jsOrBool node.return_json false
                rules := jsOrStr node.rules "" }, ?_⟩
      simp [mkSwarmConfig, ht, hmem]
  · intro cfg hcfg
    cases h : node.swarm_type with
    | none => simp [mkSwarmConfig, h] at hcfg
    | some t =>
      by_cases hmem : t ∈ validSwarmTypes
      · simp only [mkSwarmConfig, h, hmem, if_pos] at hcfg
        cases hcfg
        rfl
      · simp [mkSwarmConfig, h, hmem] at hcfg

/-- Witness for C1: instantiating the amended theorem at the
`SequentialWorkflow` node. -/
theorem swarmConfig_enum_closed_witness :
    seqWorkflowNode.swarm_type = some seqWorkflowCfg.swarmType ∧
      (∃ t, seqWorkflowNode.swarm_type = some t ∧ t ∈ validSwarmTypes) :=
  ⟨(swarmConfig_enum_closed seqWorkflowNode).2 seqWorkflowCfg rfl,
    (swarmConfig_enum_closed seqWorkflowNode).1.mp ⟨seqWorkflowCfg, rfl⟩⟩

/-- C7: the retry wrapper retries only transient failures, up to 3
attempts: `k < 3` transient failures followed by a success take exactly
`k + 1` attempts; 3 transient failures exhaust the attempts and the build
fails after exactly 3; a non-transient error on the first attempt
propagates immediately. -/
theorem createAgentWithRetry_policy (f : Nat → Except JsErr Agent) :
    (∀ k a, k < 3 → (∀ i, 1 ≤ i → i ≤ k → failsTransiently (f i)) →
        f (k + 1) = .ok a → createAgentWithRetry f = (.ok a, k + 1))
    ∧ ((∀ i, 1 ≤ i → i ≤ 3 → failsTransiently (f i)) →
        ∃ e, createAgentWithRetry f = (.error e, 3) ∧ e.isTransient = true)
    ∧ (∀ e, f 1 = .error e → e.isTransient = false →
        createAgentWithRetry f = (.error e, 1)) := by
  refine ⟨?_, ?_, ?_⟩
  · intro k a hk hfail hsucc
    interval_cases k
    · simp [createAgentWithRetry, retryFrom, hsucc]
    · obtain ⟨e1, he1, ht1⟩ := hfail 1 (by decide) (by decide)
      simp [createAgentWithRetry, retryFrom, he1, ht1, hsucc]
    · obtain ⟨e1, he1, ht1⟩ := hfail 1 (by decide) (by decide)
      obtain ⟨e2, he2, ht2⟩ := hfail 2 (by decide) (by decide)
      simp [createAgentWithRetry, retryFrom, he1, ht1, he2, ht2, hsucc]
  · intro hfail
    obtain ⟨e1, he1, ht1⟩ := hfail 1 (by decide) (by decide)
    obtain ⟨e2, he2, ht2⟩ := hfail 2 (by decide) (by decide)
    obtain ⟨e3, he3, ht3⟩ := hfail 3 (by decide) (by decide)
    refine ⟨e3, ?_, ht3⟩
    simp [createAgentWithRetry, retryFrom, he1, ht1, he2, ht2, he3, ht3]
  · intro e he hnt
    simp [createAgentWithRetry, retryFrom, he, hnt]

/-- Witness for C7: one transient failure followed by a success builds the
agent on attempt 2. -/
theorem createAgentWithRetry_policy_witness :
    createAgentWithRetry flakyOnce = (.ok goodAgent, 2) := by
  refine (createAgentWithRetry_policy flakyOnce).1 1 goodAgent (by decide) ?_ rfl
  intro i h1 h2
  have hi : i = 1 := le_antisymm h2 h1
  cases hi
  exact ⟨.connection "net down", rfl, rfl⟩

/-- Counterexample for C5: supplying both a file path and a YAML string is
not an error — the string silently wins, even over an unreadable file. -/
theorem loadYamlSafely_both_sources_counterexample :
    loadYamlSafely (constParse docOneAgent) fsEmpty
      (some "agents.yaml") (some "agents: ...") = .ok docOneAgent := rfl

/-- C5 (amended): the loader fails with the source error when neither
source is supplied; when both are supplied, `yamlString` takes precedence
and the file source is ignored entirely. -/
theorem loadYamlSafely_source_selection
    (parse : String → Except String ConfigDict)
    (fsRead fsRead2 : String → Option String)
    (yamlFile : Option String) (s : String) (hs : s ≠ "") :
    (loadYamlSafely parse fsRead none none =
      .error ("Error validating configuration: " ++
        "Either yamlFile or yamlString must be provided"))
    ∧ loadYamlSafely parse fsRead yamlFile (some s) =
        loadYamlSafely parse fsRead2 none (some s) := by
  constructor
  · rfl
  · simp [loadYamlSafely, loadYamlSafelyBody, truthyStrOpt, hs]

/-- Witness for C5: the amended statement at a concrete parser, file
system and sources. -/
theorem loadYamlSafely_source_selection_witness :
    (loadYamlSafely (constParse docOneAgent) fsEmpty none none =
      .error ("Error validating configuration: " ++
        "Either yamlFile or yamlString must be provided"))
    ∧ loadYamlSafely (constParse docOneAgent) fsEmpty
          (some "agents.yaml") (some "doc") =
        loadYamlSafely (constParse docOneAgent) fsEmpty none (some "doc") := by
  have h := loadYamlSafely_source_selection (constParse docOneAgent) fsEmpty fsEmpty
    (some "agents.yaml") "doc" (by decide)
  exact ⟨h.1, h.2⟩

/-- Counterexample for C2: on a document whose swarm block carries the
unrecognized type `Bogus`, the pipeline fails — but only after one model
backend was instantiated and one agent constructed, so a spy backend
factory records one invocation, not zero. -/
theorem bogus_swarm_counterexample :
    createAgentsFromYaml (constParse docBogusSwarm) fsEmpty ctorOk runStub
        none (some "doc") "auto"
      = (.error swarmTypeErrorMsg,
          { modelsInstantiated := 1, agentsConstructed := 1 })
    ∧ (createAgentsFromYaml (constParse docBogusSwarm) fsEmpty ctorOk runStub
        none (some "doc") "auto").2.modelsInstantiated ≠ 0 :=
  ⟨rfl, by decide⟩

/-- C2 (amended): with an unrecognized swarm type the pipeline call fails
as a whole, but only after the agent loop has finished: one model backend
has been instantiated and one agent constructed per declared agent by the
time the failure surfaces. -/
theorem bogus_swarm_fails_after_agents
    (parse : String → Except String ConfigDict) (fsRead : String → Option String)
    (agentCtor : AgentConfig → String → Nat → Except JsErr Agent)
    (routerRun : SwarmRouter → Option String → String)
    (yamlFile yamlString : Option String) (returnType : String)
    (config : ConfigDict) (node : RawSwarmNode) (e : String)
    (agents : List Agent) (tr : PipelineTrace)
    (hload : loadYamlSafely parse fsRead yamlFile yamlString = .ok config)
    (hsw : config.swarm_architecture = some node)
    (hbad : mkSwarmConfig node = .error e)
    (hbuild : buildAgentsLoop agentCtor (config.agents.getD []) = (.ok agents, tr)) :
    createAgentsFromYaml parse fsRead agentCtor routerRun yamlFile yamlString returnType
        = (.error e, tr)
    ∧ tr.modelsInstantiated = (config.agents.getD []).length
    ∧ tr.agentsConstructed = (config.agents.getD []).length := by
  obtain ⟨m1, m2, _⟩ := buildAgentsLoop_ok_counts agentCtor _ agents tr hbuild
  refine ⟨?_, m1, m2⟩
  simp only [createAgentsFromYaml, hload, hbuild, hsw, hbad]

/-- Witness for C2: the amended statement at the concrete `Bogus`
document. -/
theorem bogus_swarm_fails_after_agents_witness :
    createAgentsFromYaml (constParse docBogusSwarm) fsEmpty ctorOk runStub
        none (some "doc") "agents"
      = (.error swarmTypeErrorMsg,
          { modelsInstantiated := 1, agentsConstructed := 1 }) :=
  (bogus_swarm_fails_after_agents (constParse docBogusSwarm) fsEmpty ctorOk runStub
    none (some "doc") "agents" docBogusSwarm bogusSwarmNode swarmTypeErrorMsg
    [goodAgent] { modelsInstantiated := 1, agentsConstructed := 1 }
    rfl rfl rfl rfl).1

/-- Counterexample for C3: with an unrecognized `returnType` on a valid
one-agent document the call fails with the unsupported-return-type error,
but only after one model backend was instantiated and one agent
constructed — not before any construction work. -/
theorem invalid_return_type_counterexample :
    createAgentsFromYaml (constParse docOneAgent) fsEmpty ctorOk runStub
        none (some "doc") "bogus"
      = (.error invalidReturnTypeMsg,
          { modelsInstantiated := 1, agentsConstructed := 1 })
    ∧ (createAgentsFromYaml (constParse docOneAgent) fsEmpty ctorOk runStub
        none (some "doc") "bogus").2.agentsConstructed ≠ 0 :=
  ⟨rfl, by decide⟩

/-- C3 (amended): an unrecognized `returnType` makes the call fail with
the unsupported-return-type error, but the check runs only after the
agents (and the router, when declared) have been constructed: every
declared agent has been built by the time the error is raised. -/
theorem invalid_return_type_fails_after_agents
    (parse : String → Except String ConfigDict) (fsRead : String → Option String)
    (agentCtor : AgentConfig → String → Nat → Except JsErr Agent)
    (routerRun : SwarmRouter → Option String → String)
    (yamlFile yamlString : Option String) (returnType : String)
    (config : ConfigDict) (agents : List Agent) (tr : PipelineTrace)
    (hload : loadYamlSafely parse fsRead yamlFile yamlString = .ok config)
    (hbuild : buildAgentsLoop agentCtor (config.agents.getD []) = (.ok agents, tr))
    (hrout : config.swarm_architecture = none ∨
      ∃ n sc, config.swarm_architecture = some n ∧ mkSwarmConfig n = .ok sc)
    (hrt : returnType ∉ validReturnTypes) :
    createAgentsFromYaml parse fsRead agentCtor routerRun yamlFile yamlString returnType
        = (.error invalidReturnTypeMsg, tr)
    ∧ tr.agentsConstructed = (config.agents.getD []).length := by
  obtain ⟨_, m2, _⟩ := buildAgentsLoop_ok_counts agentCtor _ agents tr hbuild
  refine ⟨?_, m2⟩
  rcases hrout with hsw | ⟨n, sc, hsw, hok⟩
  · simp only [createAgentsFromYaml, hload, hbuild, hsw, hrt, if_false]
  · simp only [createAgentsFromYaml, hload, hbuild, hsw, hok, hrt, if_false]

/-- Witness for C3: the amended statement at the concrete one-agent
document and `returnType` value `bogus`. -/
theorem invalid_return_type_fails_after_agents_witness :
    createAgentsFromYaml (constParse docOneAgent) fsEmpty ctorOk runStub
        none (some "doc") "bogus"
      = (.error invalidReturnTypeMsg,
          { modelsInstantiated := 1, agentsConstructed := 1 }) :=
  (invalid_return_type_fails_after_agents (constParse docOneAgent) fsEmpty ctorOk
    runStub none (some "doc") "bogus" docOneAgent [goodAgent]
    { modelsInstantiated := 1, agentsConstructed := 1 }
    rfl rfl (Or.inl rfl) (by decide)).1

/-- C6: if any agent declared in a loaded document fails construction, the
whole `createAgentsFromYaml` call fails — no partial agent list, router or
other result is returned, for any requested `returnType`. -/
theorem pipeline_all_or_nothing
    (parse : String → Except String ConfigDict) (fsRead : String → Option String)
    (agentCtor : AgentConfig → String → Nat → Except JsErr Agent)
    (routerRun : SwarmRouter → Option String → String)
    (yamlFile yamlString : Option String) (returnType : String)
    (config : ConfigDict) (node : RawAgentNode) (e : JsErr)
    (hload : loadYamlSafely parse fsRead yamlFile yamlString = .ok config)
    (hmem : node ∈ config.agents.getD [])
    (hfail : (buildOne agentCtor node).1 = .error e) :
    ∃ msg, (createAgentsFromYaml parse fsRead agentCtor routerRun yamlFile
        yamlString returnType).1 = .error msg := by
  obtain ⟨msg, hmsg⟩ := buildAgentsLoop_error_of_mem agentCtor _ node e hmem hfail
  refine ⟨msg, ?_⟩
  cases hl : buildAgentsLoop agentCtor (config.agents.getD []) with
  | mk fst tr =>
    rw [hl] at hmsg
    cases fst with
    | ok as => simp at hmsg
    | error m =>
      simp only at hmsg
      cases hmsg
      simp only [createAgentsFromYaml, hload, hl]

/-- Witness for C6: a document with two agents where the second agent
fails construction makes the whole call fail. -/
theorem pipeline_all_or_nothing_witness :
    ∃ msg, (createAgentsFromYaml (constParse docTwoAgents) fsEmpty ctorFailB runStub
        none (some "doc") "auto").1 = .error msg :=
  pipeline_all_or_nothing (constParse docTwoAgents) fsEmpty ctorFailB runStub
    none (some "doc") "auto" docTwoAgents goodAgentNodeB (.other "boom")
    rfl (List.Mem.tail _ (List.Mem.head _)) rfl

/-- C9: the return-type contract: requesting `swarm` or `run_swarm` on a
document with no `swarm_architecture` key fails with the missing-router
error; requesting `agents` returns the single constructed instance
directly when exactly one agent was built, and the full list — matching
the declared nodes one by one, in declaration order — when two or more
were built. -/
theorem pipeline_return_type_contract
    (parse : String → Except String ConfigDict) (fsRead : String → Option String)
    (agentCtor : AgentConfig → String → Nat → Except JsErr Agent)
    (routerRun : SwarmRouter → Option String → String)
    (yamlFile yamlString : Option String)
    (config : ConfigDict) (agents : List Agent) (tr : PipelineTrace)
    (hload : loadYamlSafely parse fsRead yamlFile yamlString = .ok config)
    (hbuild : buildAgentsLoop agentCtor (config.agents.getD []) = (.ok agents, tr)) :
    (config.swarm_architecture = none →
      ∀ rt, rt = "swarm" ∨ rt = "run_swarm" →
        createAgentsFromYaml parse fsRead agentCtor routerRun yamlFile yamlString rt
          = (.error "Cannot run swarm: SwarmRouter not created.", tr))
    ∧ ((config.swarm_architecture = none ∨
          ∃ n sc, config.swarm_architecture = some n ∧ mkSwarmConfig n = .ok sc) →
        (∀ a, agents = [a] →
          createAgentsFromYaml parse fsRead agentCtor routerRun yamlFile yamlString
              "agents" = (.ok (.singleAgent a), tr))
        ∧ (2 ≤ agents.length →
          createAgentsFromYaml parse fsRead agentCtor routerRun yamlFile yamlString
              "agents" = (.ok (.agentList agents), tr)
          ∧ List.Forall₂ (fun n a => (buildOne agentCtor n).1 = .ok a)
              (config.agents.getD []) agents)) := by
  constructor
  · intro hsw rt hrt
    rcases hrt with heq | heq
    · cases heq
      simp [createAgentsFromYaml, hload, hbuild, hsw, validReturnTypes]
    · cases heq
      simp [createAgentsFromYaml, hload, hbuild, hsw, validReturnTypes]
  · intro hrout
    constructor
    · intro a ha
      cases ha
      rcases hrout with hsw | ⟨n, sc, hsw, hok⟩
      · simp [createAgentsFromYaml, hload, hbuild, hsw, validReturnTypes]
      · simp [createAgentsFromYaml, hload, hbuild, hsw, hok, validReturnTypes]
    · intro hlen
      refine ⟨?_, buildAgentsLoop_ok_order agentCtor _ agents tr hbuild⟩
      match agents, hlen with
      | a :: b :: rest, _ =>
        rcases hrout with hsw | ⟨n, sc, hsw, hok⟩
        · simp [createAgentsFromYaml, hload, hbuild, hsw, validReturnTypes]
        · simp [createAgentsFromYaml, hload, hbuild, hsw, hok, validReturnTypes]

/-- Witness for C9: the missing-swarm failure and the single-instance and
full-list shapes at concrete documents. -/
theorem pipeline_return_type_contract_witness :
    (createAgentsFromYaml (constParse docOneAgent) fsEmpty ctorOk runStub
        none (some "doc") "swarm"
      = (.error "Cannot run swarm: SwarmRouter not created.",
          { modelsInstantiated := 1, agentsConstructed := 1 }))
    ∧ (createAgentsFromYaml (constParse docOneAgent) fsEmpty ctorOk runStub
        none (some "doc") "agents"
      = (.ok (.singleAgent goodAgent),
          { modelsInstantiated := 1, agentsConstructed := 1 }))
    ∧ (createAgentsFromYaml (constParse docTwoAgents) fsEmpty ctorOk runStub
        none (some "doc") "agents"
      = (.ok (.agentList [goodAgent, goodAgentB]),
          { modelsInstantiated := 2, agentsConstructed := 2 })) := by
  have h1 := pipeline_return_type_contract (constParse docOneAgent) fsEmpty ctorOk
    runStub none (some "doc") docOneAgent [goodAgent]
    { modelsInstantiated := 1, agentsConstructed := 1 } rfl rfl
  have h2 := pipeline_return_type_contract (constParse docTwoAgents) fsEmpty ctorOk
    runStub none (some "doc") docTwoAgents [goodAgent, goodAgentB]
    { modelsInstantiated := 2, agentsConstructed := 2 } rfl rfl
  exact ⟨h1.1 rfl "swarm" (Or.inl rfl),
    (h1.2 (Or.inl rfl)).1 goodAgent rfl,
    ((h2.2 (Or.inl rfl)).2 (by decide)).1⟩

/-- C10: on any loaded document whose agents all construct and whose
optional swarm block validates, requesting `returnType = "tasks"` returns
the empty list — no agent, router, task or execution output is included. -/
theorem pipeline_tasks_returns_empty
    (parse : String → Except String ConfigDict) (fsRead : String → Option String)
    (agentCtor : AgentConfig → String → Nat → Except JsErr Agent)
    (routerRun : SwarmRouter → Option String → String)
    (yamlFile yamlString : Option String)
    (config : ConfigDict) (agents : List Agent) (tr : PipelineTrace)
    (hload : loadYamlSafely parse fsRead yamlFile yamlString = .ok config)
    (hbuild : buildAgentsLoop agentCtor (config.agents.getD []) = (.ok agents, tr))
    (hrout : config.swarm_architecture = none ∨
      ∃ n sc, config.swarm_architecture = some n ∧ mkSwarmConfig n = .ok sc) :
    createAgentsFromYaml parse fsRead agentCtor routerRun yamlFile yamlString "tasks"
      = (.ok (.taskList []), tr) := by
  rcases hrout with hsw | ⟨n, sc, hsw, hok⟩
  · simp [createAgentsFromYaml, hload, hbuild, hsw, validReturnTypes]
  · simp [createAgentsFromYaml, hload, hbuild, hsw, hok, validReturnTypes]

/-- Witness for C10: the one-agent document under `returnType = "tasks"`
yields the empty list. -/
theorem pipeline_tasks_returns_empty_witness :
    createAgentsFromYaml (constParse docOneAgent) fsEmpty ctorOk runStub
        none (some "doc") "tasks"
      = (.ok (.taskList []), { modelsInstantiated := 1, agentsConstructed := 1 }) :=
  pipeline_tasks_returns_empty (constParse docOneAgent) fsEmpty ctorOk runStub
    none (some "doc") docOneAgent [goodAgent]
    { modelsInstantiated := 1, agentsConstructed := 1 } rfl rfl (Or.inl rfl)
